import Mathlib

/-!
Shallow embedding of `src/stock_analyzer.py` (NSE stock analyzer).

Raw provider fields are modelled as `Option ℚ`: `none` covers both a
missing key and a null value (Python's `dict.get` returns `None` in both
cases).  Python truthiness on such a value (`if pe:`, `a or b`,
`current and high and ...`) treats `none` and `some 0` as falsy; the
definitions below reproduce that behaviour exactly.
-/

set_option autoImplicit false

/-- The quote-info mapping consumed by the deriver (spec §3 RawQuoteInfo).
Every field is optional. -/
structure RawQuoteInfo where
  currentPrice : Option ℚ
  regularMarketPreviousClose : Option ℚ
  fiftyTwoWeekHigh : Option ℚ
  fiftyTwoWeekLow : Option ℚ
  averageVolume : Option ℚ
  trailingPE : Option ℚ
deriving DecidableEq

/-- One row of the one-week price history; only the `Volume` column is
read by the code. -/
structure PriceHistoryPoint where
  volume : ℕ
deriving DecidableEq

/-- `StockDataOperator._get_current_price`:
`self.info.get('currentPrice') or self.info.get('regularMarketPreviousClose')`.
Python `or` yields the second operand whenever the first is falsy
(`None` or `0`). -/
def _get_current_price (info : RawQuoteInfo) : Option ℚ :=
  match info.currentPrice with
  | some c => if c = 0 then info.regularMarketPreviousClose else some c
  | none => info.regularMarketPreviousClose

/-- `StockDataOperator._calculate_weekly_volume`: sums the `Volume`
column when the history frame exists and is non-empty, else `None`. -/
def _calculate_weekly_volume (historical_data : Option (List PriceHistoryPoint)) :
    Option ℕ :=
  match historical_data with
  | some h => if h = [] then none else some (h.map PriceHistoryPoint.volume).sum
  | none => none

/-- `StockDataOperator._near_52_week_high` with the default
`threshold=0.95`: `current and high and current >= high * threshold`,
where `current`/`high` may be `None` and `0` is falsy. -/
def _near_52_week_high (info : RawQuoteInfo) : Bool :=
  match _get_current_price info, info.fiftyTwoWeekHigh with
  | some current, some high =>
      decide (current ≠ 0) && decide (high ≠ 0) &&
        decide (high * (0.95 : ℚ) ≤ current)
  | _, _ => false

/-- `StockDataOperator._near_52_week_low` with the default
`threshold=1.05`: `current and low and current <= low * threshold`. -/
def _near_52_week_low (info : RawQuoteInfo) : Bool :=
  match _get_current_price info, info.fiftyTwoWeekLow with
  | some current, some low =>
      decide (current ≠ 0) && decide (low ≠ 0) &&
        decide (current ≤ low * (1.05 : ℚ))
  | _, _ => false

/-- The P/E branch of `_get_valuation_assessment`:
`pe = self.info.get('trailingPE'); if pe: ...` — the label appended for
the P/E rule, `[]` when `pe` is falsy (`None` or `0`). -/
def pe_labels (info : RawQuoteInfo) : List String :=
  match info.trailingPE with
  | none => []
  | some pe =>
      if pe = 0 then []
      else if pe < 15 then ["Undervalued (P/E < 15)"]
      else if 35 < pe then ["Overvalued (P/E > 35)"]
      else ["Fair Valuation"]

/-- The list built by the three `if` blocks of
`_get_valuation_assessment`, in append order, before the fallback. -/
def rule_labels (info : RawQuoteInfo) : List String :=
  pe_labels info
    ++ (if _near_52_week_high info then ["Near 52-week High"] else [])
    ++ (if _near_52_week_low info then ["Near 52-week Low"] else [])

/-- `StockDataOperator._get_valuation_assessment`:
`return assessment if assessment else ["No significant alerts"]`. -/
def _get_valuation_assessment (info : RawQuoteInfo) : List String :=
  if rule_labels info = [] then ["No significant alerts"] else rule_labels info

/-- The output record of `get_all_metrics` (spec §3 DerivedMetrics). -/
structure DerivedMetrics where
  ticker : String
  current_price : Option ℚ
  week52_high : Option ℚ
  week52_low : Option ℚ
  avg_daily_volume : Option ℚ
  weekly_volume : Option ℕ
  pe_ratio : Option ℚ
  valuation_assessment : List String
deriving DecidableEq

/-- `StockDataOperator.get_all_metrics`: `fetch_data` either fails
(`fetched = none`, the method returns `None`) or supplies `self.info`
and `self.historical_data` (`fetched = some (info, hist)`), in which
case the dictionary of derived metrics is built. -/
def get_all_metrics (ticker : String)
    (fetched : Option (RawQuoteInfo × Option (List PriceHistoryPoint))) :
    Option DerivedMetrics :=
  match fetched with
  | none => none
  | some (info, hist) =>
      some
        { ticker := ticker
          current_price := _get_current_price info
          week52_high := info.fiftyTwoWeekHigh
          week52_low := info.fiftyTwoWeekLow
          avg_daily_volume := info.averageVolume
          weekly_volume := _calculate_weekly_volume hist
          pe_ratio := info.trailingPE
          valuation_assessment := _get_valuation_assessment info }

/-- `fetch_all_nse_tickers`: the static ticker list.  In the Python
source the entries `"FEDERALBNK"` and `"AAVAS"` are adjacent string
literals with no comma between them, so the interpreter concatenates
them into the single element `"FEDERALBNKAAVAS"`. -/
def fetch_all_nse_tickers : List String :=
  [ "WELCORP", "FORTIS", "BEL", "TDPOWERSYS", "ANANTRAJ", "TARIL",
    "KAYNES", "SOUTHBANK", "OLECTRA", "JWL", "PREMEXPLN",
    "FEDERALBNKAAVAS",
    "MANKIND", "BLS", "ARVINDFASN", "POLYMED", "REDTAPE", "SJS",
    "APTUS", "MEDANTA", "IDFCFIRSTB", "BIKAJI", "PNGJL", "BSOFT",
    "THOMASCOOK", "BAJFINANCE", "NH", "EMUDHRA", "SBFC", "VBL",
    "SHRIRAMFIN", "TATAELXSI", "BECTORFOOD", "ABCAPITAL",
    "KAJARIACER", "TATAMOTORS" ]

/-- The label the spec's P/E rule designates for a given P/E value. -/
def peLabel (pe : ℚ) : String :=
  if pe < 15 then "Undervalued (P/E < 15)"
  else if 35 < pe then "Overvalued (P/E > 35)"
  else "Fair Valuation"

/-- The three P/E labels of spec §4.1 rule 1. -/
def peLabelSet : List String :=
  ["Undervalued (P/E < 15)", "Overvalued (P/E > 35)", "Fair Valuation"]

section Helpers

/-- Every P/E-rule label is one of the three strings of `peLabelSet`. -/
lemma peLabel_mem_set (pe : ℚ) : peLabel pe ∈ peLabelSet := by
  unfold peLabel peLabelSet
  split_ifs <;> simp

/-- No P/E label collides with the band labels or the fallback label. -/
lemma peLabelSet_ne (s : String) (hs : s ∈ peLabelSet) :
    s ≠ "Near 52-week High" ∧ s ≠ "Near 52-week Low" ∧
      s ≠ "No significant alerts" := by
  simp only [peLabelSet, List.mem_cons, List.not_mem_nil, or_false] at hs
  rcases hs with h | h | h <;> subst h <;> exact ⟨by decide, by decide, by decide⟩

/-- With a present, non-zero P/E the P/E branch appends exactly `peLabel pe`. -/
lemma pe_labels_of_ne_zero (info : RawQuoteInfo) (pe : ℚ)
    (hpe : info.trailingPE = some pe) (hne : pe ≠ 0) :
    pe_labels info = [peLabel pe] := by
  unfold pe_labels peLabel
  rw [hpe]
  simp only [if_neg hne]
  split_ifs <;> rfl

/-- With an absent or zero P/E the P/E branch appends nothing. -/
lemma pe_labels_eq_nil (info : RawQuoteInfo)
    (h : info.trailingPE = none ∨ info.trailingPE = some 0) :
    pe_labels info = [] := by
  rcases h with h | h <;> simp [pe_labels, h]

/-- Anything in the P/E branch output is one of the three P/E labels. -/
lemma pe_labels_mem (info : RawQuoteInfo) (s : String)
    (h : s ∈ pe_labels info) : s ∈ peLabelSet := by
  cases hpe : info.trailingPE with
  | none =>
      rw [pe_labels_eq_nil info (Or.inl hpe)] at h
      simp at h
  | some pe =>
      by_cases h0 : pe = 0
      · subst h0
        rw [pe_labels_eq_nil info (Or.inr hpe)] at h
        simp at h
      · rw [pe_labels_of_ne_zero info pe hpe h0] at h
        simp only [List.mem_singleton] at h
        subst h
        exact peLabel_mem_set pe

/-- Membership in the pre-fallback label list, rule by rule. -/
lemma mem_rule_labels_iff (info : RawQuoteInfo) (s : String) :
    s ∈ rule_labels info ↔
      s ∈ pe_labels info ∨
        (s = "Near 52-week High" ∧ _near_52_week_high info = true) ∨
        (s = "Near 52-week Low" ∧ _near_52_week_low info = true) := by
  unfold rule_labels
  cases hH : _near_52_week_high info <;> cases hL : _near_52_week_low info <;>
    simp [hH, hL]

/-- The fallback label is never produced by rules 1–3. -/
lemma fallback_not_mem_rule_labels (info : RawQuoteInfo) :
    "No significant alerts" ∉ rule_labels info := by
  intro h
  rcases (mem_rule_labels_iff info _).1 h with h | ⟨h, _⟩ | ⟨h, _⟩
  · exact absurd (pe_labels_mem info _ h) (by decide)
  · exact absurd h (by decide)
  · exact absurd h (by decide)

/-- The high-band test, unfolded to its arithmetic content. -/
lemma near_high_true_iff (info : RawQuoteInfo) :
    _near_52_week_high info = true ↔
      ∃ current high, _get_current_price info = some current ∧
        info.fiftyTwoWeekHigh = some high ∧ current ≠ 0 ∧ high ≠ 0 ∧
        high * (0.95 : ℚ) ≤ current := by
  unfold _near_52_week_high
  cases hc : _get_current_price info with
  | none => simp
  | some c =>
      cases hh : info.fiftyTwoWeekHigh with
      | none => simp
      | some h => simp [hh, and_assoc]

/-- The low-band test, unfolded to its arithmetic content. -/
lemma near_low_true_iff (info : RawQuoteInfo) :
    _near_52_week_low info = true ↔
      ∃ current low, _get_current_price info = some current ∧
        info.fiftyTwoWeekLow = some low ∧ current ≠ 0 ∧ low ≠ 0 ∧
        current ≤ low * (1.05 : ℚ) := by
  unfold _near_52_week_low
  cases hc : _get_current_price info with
  | none => simp
  | some c =>
      cases hl : info.fiftyTwoWeekLow with
      | none => simp
      | some l => simp [hl, and_assoc]

/-- "Near 52-week High" reaches the final assessment exactly when the
band test fires. -/
lemma mem_assessment_high_iff (info : RawQuoteInfo) :
    "Near 52-week High" ∈ _get_valuation_assessment info ↔
      _near_52_week_high info = true := by
  unfold _get_valuation_assessment
  split_ifs with hemp
  · constructor
    · intro h
      simp only [List.mem_singleton] at h
      exact absurd h (by decide)
    · intro h
      have hmem : "Near 52-week High" ∈ rule_labels info :=
        (mem_rule_labels_iff info _).2 (Or.inr (Or.inl ⟨rfl, h⟩))
      rw [hemp] at hmem
      simp at hmem
  · rw [mem_rule_labels_iff]
    constructor
    · rintro (h | ⟨_, h⟩ | ⟨h, _⟩)
      · exact absurd (pe_labels_mem info _ h) (by decide)
      · exact h
      · exact absurd h (by decide)
    · intro h
      exact Or.inr (Or.inl ⟨rfl, h⟩)

/-- "Near 52-week Low" reaches the final assessment exactly when the
band test fires. -/
lemma mem_assessment_low_iff (info : RawQuoteInfo) :
    "Near 52-week Low" ∈ _get_valuation_assessment info ↔
      _near_52_week_low info = true := by
  unfold _get_valuation_assessment
  split_ifs with hemp
  · constructor
    · intro h
      simp only [List.mem_singleton] at h
      exact absurd h (by decide)
    · intro h
      have hmem : "Near 52-week Low" ∈ rule_labels info :=
        (mem_rule_labels_iff info _).2 (Or.inr (Or.inr ⟨rfl, h⟩))
      rw [hemp] at hmem
      simp at hmem
  · rw [mem_rule_labels_iff]
    constructor
    · rintro (h | ⟨h, _⟩ | ⟨_, h⟩)
      · exact absurd (pe_labels_mem info _ h) (by decide)
      · exact absurd h (by decide)
      · exact h
    · intro h
      exact Or.inr (Or.inr ⟨rfl, h⟩)

/-- An absent derived price switches the high-band test off. -/
lemma near_high_eq_false_of_none (info : RawQuoteInfo)
    (h : _get_current_price info = none) : _near_52_week_high info = false := by
  unfold _near_52_week_high
  rw [h]

/-- An absent derived price switches the low-band test off. -/
lemma near_low_eq_false_of_none (info : RawQuoteInfo)
    (h : _get_current_price info = none) : _near_52_week_low info = false := by
  unfold _near_52_week_low
  rw [h]

/-- No P/E label collides with either band label. -/
lemma peLabel_ne_near (pe : ℚ) :
    peLabel pe ≠ "Near 52-week High" ∧ peLabel pe ≠ "Near 52-week Low" := by
  unfold peLabel
  split_ifs <;> exact ⟨by decide, by decide⟩

end Helpers

/-- C1, counterexample: with `trailingPE` present but equal to `0` the
truthiness guard (`if pe:`) skips the P/E rule entirely, so none of the
three P/E labels is emitted even though the claim demands exactly one
(here `0 < 15`, so "Undervalued (P/E < 15)" would be required). -/
theorem C1_counterexample :
    (⟨none, none, none, none, none, some 0⟩ : RawQuoteInfo).trailingPE.isSome
        = true ∧
    "Undervalued (P/E < 15)" ∉
      _get_valuation_assessment ⟨none, none, none, none, none, some 0⟩ ∧
    "Overvalued (P/E > 35)" ∉
      _get_valuation_assessment ⟨none, none, none, none, none, some 0⟩ ∧
    "Fair Valuation" ∉
      _get_valuation_assessment ⟨none, none, none, none, none, some 0⟩ := by
  decide

/-- C1, amended: whenever `trailingPE` is present and non-zero the
assessment contains the designated P/E label exactly once and neither of
the other two P/E labels; when `trailingPE` is absent or zero none of
the three P/E labels appears. -/
theorem C1_amended_thm (info : RawQuoteInfo) :
    (∀ pe, info.trailingPE = some pe → pe ≠ 0 →
      (_get_valuation_assessment info).count (peLabel pe) = 1 ∧
      ∀ s, s ∈ peLabelSet → s ≠ peLabel pe →
        s ∉ _get_valuation_assessment info) ∧
    (info.trailingPE = none ∨ info.trailingPE = some 0 →
      ∀ s, s ∈ peLabelSet → s ∉ _get_valuation_assessment info) := by
  constructor
  · intro pe hpe hne
    have hpl := pe_labels_of_ne_zero info pe hpe hne
    have hrne : rule_labels info ≠ [] := by
      unfold rule_labels
      rw [hpl]
      simp
    have hassess : _get_valuation_assessment info = rule_labels info := by
      unfold _get_valuation_assessment
      rw [if_neg hrne]
    constructor
    · rw [hassess]
      unfold rule_labels
      rw [hpl]
      rw [List.count_append, List.count_append]
      have h2 :
          ((if _near_52_week_high info then ["Near 52-week High"] else [])).count
            (peLabel pe) = 0 := by
        rw [List.count_eq_zero]
        intro hmem
        split_ifs at hmem
        · simp only [List.mem_singleton] at hmem
          exact (peLabel_ne_near pe).1 hmem
        · simp at hmem
      have h3 :
          ((if _near_52_week_low info then ["Near 52-week Low"] else [])).count
            (peLabel pe) = 0 := by
        rw [List.count_eq_zero]
        intro hmem
        split_ifs at hmem
        · simp only [List.mem_singleton] at hmem
          exact (peLabel_ne_near pe).2 hmem
        · simp at hmem
      rw [h2, h3]
      simp
    · intro s hs hsne
      rw [hassess, mem_rule_labels_iff]
      rintro (h | ⟨h, _⟩ | ⟨h, _⟩)
      · rw [hpl] at h
        simp only [List.mem_singleton] at h
        exact hsne h
      · exact (peLabelSet_ne s hs).1 h
      · exact (peLabelSet_ne s hs).2.1 h
  · intro h0 s hs
    have hpl := pe_labels_eq_nil info h0
    by_cases hemp : rule_labels info = []
    · unfold _get_valuation_assessment
      rw [if_pos hemp]
      simp only [List.mem_singleton]
      exact (peLabelSet_ne s hs).2.2
    · unfold _get_valuation_assessment
      rw [if_neg hemp, mem_rule_labels_iff]
      rintro (h | ⟨h, _⟩ | ⟨h, _⟩)
      · rw [hpl] at h
        simp at h
      · exact (peLabelSet_ne s hs).1 h
      · exact (peLabelSet_ne s hs).2.1 h

/-- C1, witness: P/E = 20 yields exactly one "Fair Valuation" label and
no "Undervalued" label; with P/E absent no P/E label appears. -/
theorem C1_amended_witness :
    (_get_valuation_assessment ⟨none, none, none, none, none, some 20⟩).count
        (peLabel 20) = 1 ∧
    "Undervalued (P/E < 15)" ∉
      _get_valuation_assessment ⟨none, none, none, none, none, some 20⟩ ∧
    "Fair Valuation" ∉
      _get_valuation_assessment ⟨none, none, none, none, none, none⟩ := by
  refine ⟨((C1_amended_thm _).1 20 rfl (by decide)).1, ?_, ?_⟩
  · exact ((C1_amended_thm _).1 20 rfl (by decide)).2 _ (by decide) (by decide)
  · exact (C1_amended_thm _).2 (Or.inl rfl) _ (by decide)

/-- C2, counterexample: with `currentPrice` present but equal to `0`
(falsy in Python) and a previous close of `100`, the code returns `100`,
not the present `currentPrice` value. -/
theorem C2_counterexample :
    (⟨some 0, some 100, none, none, none, none⟩ : RawQuoteInfo).currentPrice
        = some 0 ∧
    _get_current_price ⟨some 0, some 100, none, none, none, none⟩ = some 100 ∧
    _get_current_price ⟨some 0, some 100, none, none, none, none⟩ ≠
      (⟨some 0, some 100, none, none, none, none⟩ : RawQuoteInfo).currentPrice := by
  decide

/-- C2, amended: whenever `currentPrice` is present and non-zero,
`_get_current_price` returns it unchanged, for every value of
`regularMarketPreviousClose`. -/
theorem C2_amended_thm (info : RawQuoteInfo) (c : ℚ)
    (hc : info.currentPrice = some c) (hne : c ≠ 0) :
    _get_current_price info = some c := by
  unfold _get_current_price
  rw [hc]
  simp [hne]

/-- C2, witness: a present non-zero `currentPrice` of 5 is returned even
though the previous close is 7. -/
theorem C2_amended_witness :
    _get_current_price ⟨some 5, some 7, none, none, none, none⟩ = some 5 :=
  C2_amended_thm ⟨some 5, some 7, none, none, none, none⟩ 5 rfl (by decide)

/-- C3: `_get_current_price` returns `currentPrice` when present and
non-zero; otherwise it falls back to `regularMarketPreviousClose`
whatever that is (present or absent); when both are absent it returns
`none`.  Being a total Lean function it never raises. -/
theorem C3_thm (info : RawQuoteInfo) :
    (∀ c, info.currentPrice = some c → c ≠ 0 →
      _get_current_price info = some c) ∧
    (info.currentPrice = none ∨ info.currentPrice = some 0 →
      _get_current_price info = info.regularMarketPreviousClose) ∧
    (info.currentPrice = none → info.regularMarketPreviousClose = none →
      _get_current_price info = none) := by
  refine ⟨?_, ?_, ?_⟩
  · intro c hc hne
    unfold _get_current_price
    rw [hc]
    simp [hne]
  · rintro (h | h)
    · unfold _get_current_price
      rw [h]
    · unfold _get_current_price
      rw [h]
      simp
  · intro h1 h2
    unfold _get_current_price
    rw [h1, h2]

/-- C3, witness: the three branches at concrete inputs. -/
theorem C3_witness :
    _get_current_price ⟨some 5, some 7, none, none, none, none⟩ = some 5 ∧
    _get_current_price ⟨some 0, some 7, none, none, none, none⟩ = some 7 ∧
    _get_current_price ⟨none, none, none, none, none, none⟩ = none := by
  refine ⟨(C3_thm _).1 5 rfl (by decide), ?_, (C3_thm _).2.2 rfl rfl⟩
  exact (C3_thm ⟨some 0, some 7, none, none, none, none⟩).2.1 (Or.inr rfl)

/-- C4, counterexample: with current price 10 and `fiftyTwoWeekHigh`
present but equal to `0`, the claim's conditions hold
(`10 ≥ 0 × 0.95`) yet the falsy `high` makes the code skip the label. -/
theorem C4_counterexample :
    _get_current_price ⟨some 10, none, some 0, none, none, none⟩ = some 10 ∧
    (⟨some 10, none, some 0, none, none, none⟩ : RawQuoteInfo).fiftyTwoWeekHigh
        = some 0 ∧
    (0 : ℚ) * (0.95 : ℚ) ≤ 10 ∧
    "Near 52-week High" ∉
      _get_valuation_assessment ⟨some 10, none, some 0, none, none, none⟩ := by
  refine ⟨rfl, rfl, by norm_num, ?_⟩
  decide

/-- C4, amended: "Near 52-week High" appears in the assessment exactly
when the derived current price and `fiftyTwoWeekHigh` are both present
and non-zero and current ≥ high × 0.95. -/
theorem C4_amended_thm (info : RawQuoteInfo) :
    "Near 52-week High" ∈ _get_valuation_assessment info ↔
      ∃ current high, _get_current_price info = some current ∧
        info.fiftyTwoWeekHigh = some high ∧ current ≠ 0 ∧ high ≠ 0 ∧
        high * (0.95 : ℚ) ≤ current :=
  (mem_assessment_high_iff info).trans (near_high_true_iff info)

/-- C5, counterexample: with a derived current price present but equal
to `0` (previous close 0) and `fiftyTwoWeekLow = 48`, the claim's
conditions hold (`0 ≤ 48 × 1.05`) yet the falsy current price makes the
code skip the label. -/
theorem C5_counterexample :
    _get_current_price ⟨none, some 0, none, some 48, none, none⟩ = some 0 ∧
    (⟨none, some 0, none, some 48, none, none⟩ : RawQuoteInfo).fiftyTwoWeekLow
        = some 48 ∧
    (0 : ℚ) ≤ (48 : ℚ) * (1.05 : ℚ) ∧
    "Near 52-week Low" ∉
      _get_valuation_assessment ⟨none, some 0, none, some 48, none, none⟩ := by
  refine ⟨rfl, rfl, by norm_num, ?_⟩
  decide

/-- C5, amended: "Near 52-week Low" appears in the assessment exactly
when the derived current price and `fiftyTwoWeekLow` are both present
and non-zero and current ≤ low × 1.05. -/
theorem C5_amended_thm (info : RawQuoteInfo) :
    "Near 52-week Low" ∈ _get_valuation_assessment info ↔
      ∃ current low, _get_current_price info = some current ∧
        info.fiftyTwoWeekLow = some low ∧ current ≠ 0 ∧ low ≠ 0 ∧
        current ≤ low * (1.05 : ℚ) :=
  (mem_assessment_low_iff info).trans (near_low_true_iff info)

/-- C6: the weekly volume is the sum of the per-point volumes for a
non-empty history, and `none` (not `some 0`) for an empty or
unavailable history. -/
theorem C6_thm (historical_data : Option (List PriceHistoryPoint)) :
    (∀ h, historical_data = some h → h ≠ [] →
      _calculate_weekly_volume historical_data =
        some (h.map PriceHistoryPoint.volume).sum) ∧
    (historical_data = some [] ∨ historical_data = none →
      _calculate_weekly_volume historical_data = none) := by
  constructor
  · intro h hh hne
    unfold _calculate_weekly_volume
    rw [hh]
    simp [hne]
  · rintro (h | h)
    · unfold _calculate_weekly_volume
      rw [h]
      simp
    · unfold _calculate_weekly_volume
      rw [h]

/-- C6, witness: volumes 10, 20, 30 sum to 60; the empty and the
unavailable history both give `none`. -/
theorem C6_witness :
    _calculate_weekly_volume (some [⟨10⟩, ⟨20⟩, ⟨30⟩]) = some 60 ∧
    _calculate_weekly_volume (some ([] : List PriceHistoryPoint)) = none ∧
    _calculate_weekly_volume none = none := by
  refine ⟨?_, (C6_thm _).2 (Or.inl rfl), (C6_thm _).2 (Or.inr rfl)⟩
  rw [(C6_thm _).1 [⟨10⟩, ⟨20⟩, ⟨30⟩] rfl (by decide)]
  rfl

/-- C7: when rules 1–3 emit nothing — in particular when `trailingPE`,
the derived current price, `fiftyTwoWeekHigh` and `fiftyTwoWeekLow` are
all absent — the assessment is exactly `["No significant alerts"]`, and
whenever some rule label is emitted the fallback label is absent. -/
theorem C7_thm (info : RawQuoteInfo) :
    (rule_labels info = [] →
      _get_valuation_assessment info = ["No significant alerts"]) ∧
    (info.trailingPE = none → _get_current_price info = none →
      info.fiftyTwoWeekHigh = none → info.fiftyTwoWeekLow = none →
      _get_valuation_assessment info = ["No significant alerts"]) ∧
    (rule_labels info ≠ [] →
      "No significant alerts" ∉ _get_valuation_assessment info) := by
  refine ⟨?_, ?_, ?_⟩
  · intro h
    unfold _get_valuation_assessment
    rw [if_pos h]
  · intro hpe hcur _ _
    have hempty : rule_labels info = [] := by
      unfold rule_labels
      rw [pe_labels_eq_nil info (Or.inl hpe), near_high_eq_false_of_none info hcur,
        near_low_eq_false_of_none info hcur]
      simp
    unfold _get_valuation_assessment
    rw [if_pos hempty]
  · intro h
    unfold _get_valuation_assessment
    rw [if_neg h]
    exact fallback_not_mem_rule_labels info

/-- C7, witness: the all-absent input yields exactly the fallback label,
and with P/E = 20 (a rule label present) the fallback is absent. -/
theorem C7_witness :
    _get_valuation_assessment ⟨none, none, none, none, none, none⟩ =
      ["No significant alerts"] ∧
    "No significant alerts" ∉
      _get_valuation_assessment ⟨none, none, none, none, none, some 20⟩ := by
  refine ⟨(C7_thm _).2.1 rfl rfl rfl rfl, (C7_thm _).2.2 (by decide)⟩

/-- C8: `get_all_metrics` is `none` exactly when the fetch failed, and
on every successful fetch it is the complete record of the
sub-derivations — no individual absent field makes it `none`. -/
theorem C8_thm (ticker : String) :
    (∀ fetched, get_all_metrics ticker fetched = none ↔ fetched = none) ∧
    (∀ info hist,
      get_all_metrics ticker (some (info, hist)) =
        some
          { ticker := ticker
            current_price := _get_current_price info
            week52_high := info.fiftyTwoWeekHigh
            week52_low := info.fiftyTwoWeekLow
            avg_daily_volume := info.averageVolume
            weekly_volume := _calculate_weekly_volume hist
            pe_ratio := info.trailingPE
            valuation_assessment := _get_valuation_assessment info }) := by
  constructor
  · intro fetched
    cases fetched with
    | none => simp [get_all_metrics]
    | some p =>
        obtain ⟨info, hist⟩ := p
        simp [get_all_metrics]
  · intro info hist
    rfl

/-- C9: the static ticker list contains the single malformed element
"FEDERALBNKAAVAS" (Python adjacent-string concatenation of
"FEDERALBNK" and "AAVAS") and neither constituent separately. -/
theorem C9_thm :
    fetch_all_nse_tickers.count "FEDERALBNKAAVAS" = 1 ∧
    "FEDERALBNKAAVAS" ∈ fetch_all_nse_tickers ∧
    "FEDERALBNK" ∉ fetch_all_nse_tickers ∧
    "AAVAS" ∉ fetch_all_nse_tickers := by
  decide

/-- C10: an input whose derived price, 52-week high and 52-week low are
all 100 satisfies both band conditions at once, and the assessment then
contains both band labels, high before low — the two rules are not
mutually exclusive. -/
theorem C10_thm :
    (_get_current_price ⟨some 100, none, some 100, some 100, none, none⟩).isSome
        = true ∧
    (⟨some 100, none, some 100, some 100, none, none⟩ :
        RawQuoteInfo).fiftyTwoWeekHigh.isSome = true ∧
    (⟨some 100, none, some 100, some 100, none, none⟩ :
        RawQuoteInfo).fiftyTwoWeekLow.isSome = true ∧
    (100 : ℚ) * (0.95 : ℚ) ≤ 100 ∧ (100 : ℚ) ≤ (100 : ℚ) * (1.05 : ℚ) ∧
    _get_valuation_assessment ⟨some 100, none, some 100, some 100, none, none⟩ =
      ["Near 52-week High", "Near 52-week Low"] := by
  refine ⟨rfl, rfl, rfl, by norm_num, by norm_num, ?_⟩
  norm_num [_get_valuation_assessment, rule_labels, pe_labels,
    _near_52_week_high, _near_52_week_low, _get_current_price]
  decide
